import Mathlib

/-!
Verification of the QRCodeForge QR-code generation pipeline.

This file gives a shallow embedding of the core logic of the repository:
the contact schema and vCard payload builder, the fixed encoder parameters,
the client-side orchestration handlers (the combined
`handleGenerateAndOptimize` of `src/components/qr-code-generator.tsx` and the
two-step `handleGenerateBaseQr` / `runOptimization` variant), the server
action `handleOptimize`, and the split-response optimization flow
(`optimizeQrCodeDesign` with `diagnoseFlow` and `generateImageFlow` joined by
`Promise.all`).  External effects (the `qrcode` encoder and the generative
model) are passed in as explicit function arguments; component state updates
become explicit state records.
-/

namespace QRCodeForge

/-- JavaScript truthiness of a possibly-absent string value
(`undefined`/`null` and the empty string are falsy). -/
def truthy : Option String → Bool
  | none => false
  | some s => !(s == "")

/-- The JavaScript expression `a || b` on possibly-absent string values. -/
def jsOr (a b : Option String) : Option String :=
  if truthy a then a else b

/-! ### The zod email validator

The contact schema delegates email syntax checking to the `zod` dependency
(`z.string().email()`).  The definitions below embed the email regular
expression used by zod v3:
`^(?!\.)(?!.*\.\.)([A-Z0-9_'+\-\.]*)[A-Z0-9_+-]@([A-Z0-9][A-Z0-9\-]*\.)+[A-Z]{2,}$`
(case-insensitive), decomposed into the local part and the domain part around
the single `@`. -/

/-- Characters allowed anywhere in the local part of an email address:
letters, digits, underscore, apostrophe (codepoint 39), plus, hyphen, dot. -/
def isLocalChar (c : Char) : Bool :=
  c.isAlphanum || c = '_' || c.toNat == 39 || c = '+' || c = '-' || c = '.'

/-- Characters allowed as the final character of the local part:
letters, digits, underscore, plus, hyphen (no dot, no apostrophe). -/
def isLocalEndChar (c : Char) : Bool :=
  c.isAlphanum || c = '_' || c = '+' || c = '-'

/-- Whether a character list contains two consecutive dots. -/
def hasDoubleDot : List Char → Bool
  | '.' :: '.' :: _ => true
  | _ :: rest => hasDoubleDot rest
  | [] => false

/-- Splitting a character list on a separator character; the resulting groups
never contain the separator and there is one more group than separators. -/
def splitOnChar (sep : Char) : List Char → List (List Char)
  | [] => [[]]
  | c :: rest =>
    if c = sep then [] :: splitOnChar sep rest
    else
      match splitOnChar sep rest with
      | [] => [[c]]
      | g :: gs => (c :: g) :: gs

/-- Validity of the local part of an email address: nonempty, made of the
allowed characters, not starting with a dot, no two consecutive dots, and
ending in a character from the restricted final class. -/
def localOk : List Char → Bool
  | [] => false
  | c :: rest =>
    (c :: rest).all isLocalChar && !(c = '.') && !(hasDoubleDot (c :: rest)) &&
      (match (c :: rest).getLast? with
       | some e => isLocalEndChar e
       | none => false)

/-- Validity of a non-final domain label: nonempty, starting with a letter or
digit, continuing with letters, digits or hyphens. -/
def labelOk : List Char → Bool
  | [] => false
  | c :: rest => c.isAlphanum && rest.all (fun d => d.isAlphanum || d = '-')

/-- Validity of the final domain label: at least two characters, all letters. -/
def tldOk (s : List Char) : Bool :=
  decide (2 ≤ s.length) && s.all Char.isAlpha

/-- Validity of the domain part: at least one ordinary label followed by a
final all-letter label, separated by dots. -/
def domainOk (d : List Char) : Bool :=
  match (splitOnChar '.' d).reverse with
  | tld :: labels => !(labels.isEmpty) && tldOk tld && labels.all labelOk
  | [] => false

/-- The zod v3 email validator: exactly one `@` separating a valid local part
from a valid domain part. -/
def zodEmailValid (s : String) : Bool :=
  match splitOnChar '@' s.data with
  | [l, d] => localOk l && domainOk d
  | _ => false

/-! ### The contact schema and the vCard payload -/

/-- The values of the contact form (`ContactFormValues`).  `name` is a plain
string; the other fields are optional strings, `none` standing for a value
that is absent (`undefined`). -/
structure ContactFormValues where
  name : String
  phone : Option String
  email : Option String
  org : Option String
  title : Option String
deriving Repr, DecidableEq

/-- The `contactSchema` zod object: `name` must have length at least 1
(`z.string().min(1)`), and `email`, when present, must pass the zod email
validator (`z.string().email().optional()`); `phone`, `org` and `title` are
unconstrained optional strings. -/
def contactSchemaValid (c : ContactFormValues) : Bool :=
  decide (1 ≤ c.name.length) &&
    (match c.email with
     | none => true
     | some e => zodEmailValid e)

/-- The `generateVCard` serializer: a fixed header, the `FN` and `N` lines,
then each optional field appended only when it is truthy, then the trailer.
Mirrors the string concatenation of the source line by line. -/
def generateVCard (c : ContactFormValues) : String :=
  let s0 := "BEGIN:VCARD\nVERSION:3.0\n"
  let s1 := s0 ++ "FN:" ++ c.name ++ "\n"
  let s2 := s1 ++ "N:" ++ c.name ++ ";;;\n"
  let s3 := if truthy c.org then s2 ++ "ORG:" ++ c.org.getD "" ++ "\n" else s2
  let s4 := if truthy c.title then s3 ++ "TITLE:" ++ c.title.getD "" ++ "\n" else s3
  let s5 := if truthy c.phone then s4 ++ "TEL;TYPE=CELL:" ++ c.phone.getD "" ++ "\n" else s4
  let s6 := if truthy c.email then s5 ++ "EMAIL:" ++ c.email.getD "" ++ "\n" else s5
  s6 ++ "END:VCARD"

/-! ### Payload building -/

/-- The two kinds of user input the generator accepts: a URL string, or the
contact form values. -/
inductive QrInput where
  | url (u : String)
  | contact (c : ContactFormValues)
deriving Repr, DecidableEq

/-- The validation failures of the input phase: an empty URL
(the `URL cannot be empty.` toast) or a contact form rejected by
`contactSchema` (a failed `contactForm.trigger()`). -/
inductive ValidationError where
  | emptyUrl
  | invalidContact
deriving Repr, DecidableEq

/-- The validation-and-payload phase of the handlers (`dataToEncode`
computation): a URL is rejected when empty and otherwise passed through
unchanged; a contact form is validated against `contactSchema` and then
serialized by `generateVCard`. -/
def buildPayload : QrInput → Except ValidationError String
  | .url u => if u == "" then .error .emptyUrl else .ok u
  | .contact c =>
      if contactSchemaValid c then .ok (generateVCard c) else .error .invalidContact

/-! ### The encoder contract -/

/-- The options object passed to `QRCode.toDataURL`. -/
structure QrEncodeOptions where
  width : Nat
  margin : Nat
  errorCorrectionLevel : String
deriving Repr, DecidableEq

/-- The options used by every encoder invocation in the source:
`width: 512, margin: 2, errorCorrectionLevel: 'H'`. -/
def fixedEncodeOptions : QrEncodeOptions :=
  { width := 512, margin := 2, errorCorrectionLevel := "H" }

/-! ### The optimization request and outcome -/

/-- The request sent to the optimization service
(`OptimizeQrCodeDesignInput`): the base QR data URI is required, every other
field is optional. -/
structure OptimizeRequest where
  qrCodeDataUri : String
  logoDataUri : Option String
  shapeColor : Option String
  eyeShape : Option String
  dotShape : Option String
  userInstructions : Option String
deriving Repr, DecidableEq

/-- The data of a successful `handleOptimize` call. -/
structure OptimizeSuccessData where
  optimizedQrCodeDataUri : String
  optimizationReport : String
deriving Repr, DecidableEq

/-- The outcome of the `handleOptimize` server action as observed by the
component: `success: true` with `data`, or `success: false` with `error`. -/
inductive OptimizeOutcome where
  | success (d : OptimizeSuccessData)
  | failure (error : String)
deriving Repr, DecidableEq

/-- The request object built by the component when calling `handleOptimize`:
`qrCodeDataUri` is the base QR, `logoDataUri` is `logo || undefined`, the
three style strings are always sent, and `userInstructions` is never sent. -/
def mkOptimizeRequest (qrCodeDataUri : String) (logo : Option String)
    (shapeColor eyeShape dotShape : String) : OptimizeRequest :=
  { qrCodeDataUri := qrCodeDataUri
    logoDataUri := if truthy logo then logo else none
    shapeColor := some shapeColor
    eyeShape := some eyeShape
    dotShape := some dotShape
    userInstructions := none }

/-! ### The combined handler (`handleGenerateAndOptimize`) -/

/-- The component state touched by the combined handler:
`qrCodeImage` and `report`. -/
structure GenState where
  qrCodeImage : Option String
  report : Option String
deriving Repr, DecidableEq

/-- The result of one run of the combined handler: the final component state
together with the list of `(payload, options)` encoder invocations made. -/
structure GenResult where
  state : GenState
  encoderCalls : List (String × QrEncodeOptions)
deriving Repr, DecidableEq

/-- The combined `handleGenerateAndOptimize` handler.  It first clears
`report` and `qrCodeImage`, then validates and builds the payload (returning
early on failure), then encodes with the fixed options inside a `try` block,
then calls `handleOptimize`.  On optimization failure the handler assigns the
base QR to `qrCodeImage` and throws; the `catch` block then assigns `null` to
both `qrCodeImage` and `report`.  The external encoder and the optimization
outcome are passed in as functions. -/
def handleGenerateAndOptimize
    (encode : String → QrEncodeOptions → Except String String)
    (optimize : OptimizeRequest → OptimizeOutcome)
    (input : QrInput) (logo : Option String)
    (shapeColor eyeShape dotShape : String)
    (st : GenState) : GenResult :=
  -- setReport(null); setQrCodeImage(null)
  let cleared : GenState := { qrCodeImage := none, report := none }
  match buildPayload input with
  | .error _ => { state := cleared, encoderCalls := [] }
  | .ok dataToEncode =>
    match encode dataToEncode fixedEncodeOptions with
    | .error _ =>
        -- the thrown EncodingError reaches the catch block:
        -- setQrCodeImage(null); setReport(null)
        { state := { qrCodeImage := none, report := none }
          encoderCalls := [(dataToEncode, fixedEncodeOptions)] }
    | .ok baseQr =>
      match optimize (mkOptimizeRequest baseQr logo shapeColor eyeShape dotShape) with
      | .success d =>
          { state := { qrCodeImage := some d.optimizedQrCodeDataUri
                       report := some d.optimizationReport }
            encoderCalls := [(dataToEncode, fixedEncodeOptions)] }
      | .failure _ =>
          -- setQrCodeImage(baseQr) runs, then the handler throws and the
          -- catch block overwrites: setQrCodeImage(null); setReport(null)
          let afterFallbackAssign : GenState := { cleared with qrCodeImage := some baseQr }
          { state := { afterFallbackAssign with qrCodeImage := none, report := none }
            encoderCalls := [(dataToEncode, fixedEncodeOptions)] }

/-! ### The two-step variant (`handleGenerateBaseQr` / `runOptimization`) -/

/-- The component state of the two-step variant: `baseQr`, `optimizedQr` and
`report`. -/
structure SessState where
  baseQr : Option String
  optimizedQr : Option String
  report : Option String
deriving Repr, DecidableEq

/-- The `handleGenerateBaseQr` handler of the two-step variant: validation
failure returns early without touching the state; a successful encode stores
the base QR and resets `optimizedQr` and `report`; an encoder error is caught
and only shows a toast, leaving the state unchanged. -/
def handleGenerateBaseQr
    (encode : String → QrEncodeOptions → Except String String)
    (input : QrInput) (st : SessState) : SessState × List (String × QrEncodeOptions) :=
  match buildPayload input with
  | .error _ => (st, [])
  | .ok dataToEncode =>
    match encode dataToEncode fixedEncodeOptions with
    | .ok qrCodeDataUri =>
        ({ baseQr := some qrCodeDataUri, optimizedQr := none, report := none },
         [(dataToEncode, fixedEncodeOptions)])
    | .error _ => (st, [(dataToEncode, fixedEncodeOptions)])

/-- The `runOptimization` handler of the two-step variant: it clears the
report, calls `handleOptimize`, stores the optimized QR and the report on
success, and on failure the catch block sets `optimizedQr` and `report` to
`null`; `baseQr` is never touched. -/
def runOptimization
    (optimize : OptimizeRequest → OptimizeOutcome)
    (qrCodeDataUri : String) (logo : Option String)
    (shapeColor eyeShape dotShape : String)
    (st : SessState) : SessState :=
  let st1 : SessState := { st with report := none }
  match optimize (mkOptimizeRequest qrCodeDataUri logo shapeColor eyeShape dotShape) with
  | .success d =>
      { st1 with optimizedQr := some d.optimizedQrCodeDataUri
                 report := some d.optimizationReport }
  | .failure _ => { st1 with optimizedQr := none, report := none }

/-- The `currentQrImage` derived value of the two-step variant:
`optimizedQr || baseQr`. -/
def currentQrImage (st : SessState) : Option String :=
  jsOr st.optimizedQr st.baseQr

/-- The download anchor produced by `handleDownload`: an `href` and a
`download` filename. -/
structure DownloadAction where
  href : String
  download : String
deriving Repr, DecidableEq

/-- The `handleDownload` handler of the two-step variant:
`link.href = optimizedQr || baseQr || ""`; when the href is empty the handler
returns with an error toast and no download, otherwise it triggers a download
of `href` under the name `qrcode.png`. -/
def handleDownload (st : SessState) : Option DownloadAction :=
  let href := (jsOr st.optimizedQr st.baseQr).getD ""
  if href == "" then none
  else some { href := href, download := "qrcode.png" }

/-- The `handleDownload` handler of the combined variant:
`link.href = qrCodeImage || ""`, same emptiness check and the same
`qrcode.png` filename. -/
def handleDownloadCombined (st : GenState) : Option DownloadAction :=
  let href := st.qrCodeImage.getD ""
  if href == "" then none
  else some { href := href, download := "qrcode.png" }

/-! ### The server action schema (`actionSchema`) -/

/-- A raw action payload before validation, every field possibly absent. -/
structure RawAction where
  qrCodeDataUri : Option String
  logoDataUri : Option String
  shapeColor : Option String
  eyeShape : Option String
  dotShape : Option String
deriving Repr, DecidableEq

/-- The `actionSchema` zod object of the server action: `qrCodeDataUri` is a
required string, all other fields are optional strings. -/
def actionSchemaValid (r : RawAction) : Bool :=
  r.qrCodeDataUri.isSome

/-! ### The split-response optimization flow -/

/-- The output of the diagnostic sub-request (`diagnoseFlow`). -/
structure OptimizeQrCodeDesignOutput where
  optimizationReport : String
deriving Repr, DecidableEq

/-- The combined response of the split-variant `optimizeQrCodeDesign`. -/
structure OptimizeResponse where
  optimizationReport : String
  optimizedQrCodeDataUri : String
deriving Repr, DecidableEq

/-- The split-variant `optimizeQrCodeDesign`: `Promise.all` joins the
diagnostic sub-request and the image sub-request.  Both results are awaited;
a rejection of either sub-request rejects the combined promise, so the whole
call fails with no partial result.  The two sub-request results are passed in
as `Except` values. -/
def optimizeQrCodeDesign
    (reportResult : Except String OptimizeQrCodeDesignOutput)
    (imageResult : Except String String) : Except String OptimizeResponse :=
  match reportResult, imageResult with
  | .ok r, .ok i =>
      .ok { optimizationReport := r.optimizationReport, optimizedQrCodeDataUri := i }
  | .error e, _ => .error e
  | .ok _, .error e => .error e

/-- The media part of the model response of `ai.generate`: a possibly-absent
object with a possibly-absent `url`. -/
structure MediaPart where
  url : Option String
deriving Repr, DecidableEq

/-- The result step of `generateImageFlow`: when `media` or `media.url` is
falsy the flow throws `Image generation failed.`, otherwise it returns the
generated image url. -/
def generateImageFlowResult (media : Option MediaPart) : Except String String :=
  match media with
  | none => .error "Image generation failed."
  | some m =>
    match m.url with
    | none => .error "Image generation failed."
    | some u => if u == "" then .error "Image generation failed." else .ok u

/-! ### The prompt parts built by `generateImageFlow` -/

/-- One element of the `promptParts` array: a text part or a media part. -/
inductive PromptPart where
  | text (t : String)
  | media (url : String)
deriving Repr, DecidableEq

/-- The leading text of the image-generation prompt. -/
def imagePromptIntro : String :=
  "Generate a QR code with the following customizations. The QR code should be perfectly scannable.\n        - Data from this QR code:"

/-- The `promptParts` array of `generateImageFlow`: the intro text and the
base QR media part always come first; then each optional input field appends
its parts only when the field is truthy. -/
def promptParts (input : OptimizeRequest) : List PromptPart :=
  let ps := [PromptPart.text imagePromptIntro, PromptPart.media input.qrCodeDataUri]
  let ps := if truthy input.logoDataUri then
      ps ++ [PromptPart.text "- Embed this logo:", PromptPart.media (input.logoDataUri.getD "")]
    else ps
  let ps := if truthy input.shapeColor then
      ps ++ [PromptPart.text ("- Shape color: " ++ input.shapeColor.getD "")]
    else ps
  let ps := if truthy input.eyeShape then
      ps ++ [PromptPart.text ("- Eye shape: " ++ input.eyeShape.getD "")]
    else ps
  let ps := if truthy input.dotShape then
      ps ++ [PromptPart.text ("- Dot shape: " ++ input.dotShape.getD "")]
    else ps
  let ps := if truthy input.userInstructions then
      ps ++ [PromptPart.text ("- User instructions: " ++ input.userInstructions.getD "")]
    else ps
  ps

/-! ### Spec-side definitions

The definitions in this section follow the wording of the specification and
are compared with the source-side definitions above. -/

/-- Joining a list of lines with newline separators (no trailing newline). -/
def joinLines : List String → String
  | [] => ""
  | [a] => a
  | a :: rest => a ++ "\n" ++ joinLines rest

/-- Modelled from the spec, section 4.1: the vCard payload as a list of
lines — `BEGIN:VCARD`, `VERSION:3.0`, `FN`, `N`, then `ORG`, `TITLE`,
`TEL;TYPE=CELL`, `EMAIL` each present exactly when the corresponding optional
field is supplied, then `END:VCARD`. -/
def specVCardLines (c : ContactFormValues) : List String :=
  ["BEGIN:VCARD", "VERSION:3.0", "FN:" ++ c.name, "N:" ++ c.name ++ ";;;"]
    ++ (if truthy c.org then ["ORG:" ++ c.org.getD ""] else [])
    ++ (if truthy c.title then ["TITLE:" ++ c.title.getD ""] else [])
    ++ (if truthy c.phone then ["TEL;TYPE=CELL:" ++ c.phone.getD ""] else [])
    ++ (if truthy c.email then ["EMAIL:" ++ c.email.getD ""] else [])
    ++ ["END:VCARD"]

/-! ### Helper lemmas -/

/-- A string has length zero exactly when it is the empty string. -/
theorem length_eq_zero_iff (s : String) : s.length = 0 ↔ s = "" := by
  cases s with
  | mk data =>
    simp only [String.length]
    constructor
    · intro h
      apply String.ext
      simpa using h
    · intro h
      have := congrArg String.data h
      simpa using this

/-- A nonempty string has length at least one. -/
theorem one_le_length_of_ne_empty (s : String) (h : s ≠ "") : 1 ≤ s.length := by
  have hz : s.length ≠ 0 := fun hc => h ((length_eq_zero_iff s).mp hc)
  omega

/-! ### Claim theorems -/

/-- Claim C7: for every non-empty URL string `u`, building the payload with
kind `url` returns `u` unchanged — the payload equals the input string, with
no syntactic validation beyond non-emptiness. -/
theorem buildPayload_url_identity (u : String) (h : u ≠ "") :
    buildPayload (QrInput.url u) = Except.ok u := by
  simp [buildPayload, h]

theorem buildPayload_url_identity_witness :
    "https://example.com" ≠ "" ∧
      buildPayload (QrInput.url "https://example.com") = Except.ok "https://example.com" :=
  ⟨by decide, buildPayload_url_identity "https://example.com" (by decide)⟩

/-- Claim C10: contact validation treats an empty-string email as present and
malformed rather than as absent — with a valid name, a record whose email is
the empty string fails the schema while a record with no email passes. -/
theorem contact_email_empty_string_rejected (name : String) (phone org title : Option String)
    (h : name ≠ "") :
    contactSchemaValid
        { name := name, phone := phone, email := some "", org := org, title := title } = false ∧
    contactSchemaValid
        { name := name, phone := phone, email := none, org := org, title := title } = true := by
  constructor
  · simp [contactSchemaValid]
    intro _
    decide
  · simp [contactSchemaValid]
    exact one_le_length_of_ne_empty name h

theorem contact_email_empty_string_rejected_witness :
    "John" ≠ "" ∧
    contactSchemaValid
        { name := "John", phone := none, email := some "", org := none, title := none } = false ∧
    contactSchemaValid
        { name := "John", phone := none, email := none, org := none, title := none } = true :=
  ⟨by decide, contact_email_empty_string_rejected "John" none none none (by decide)⟩

/-- Claim C1 (code bug): after a successful encode of the valid URL
`https://example.com`, when the optimization outcome is a failure the combined
handler ends with `qrCodeImage = none` — the `catch` block overwrites the
`setQrCodeImage(baseQr)` fallback with `null`, so no usable artifact equal to
the base artifact is returned, contrary to the fallback policy and to the
source comment.  The two-step `runOptimization` variant, in contrast, keeps
the base artifact in place, with no report. -/
theorem combined_fallback_lost_on_optimize_failure :
    (handleGenerateAndOptimize (fun _ _ => Except.ok "data:image/png;base64,BASE")
        (fun _ => OptimizeOutcome.failure "timeout")
        (QrInput.url "https://example.com") none "#673AB7" "square" "square"
        { qrCodeImage := none, report := none }).state =
      { qrCodeImage := none, report := none } ∧
    runOptimization (fun _ => OptimizeOutcome.failure "timeout")
        "data:image/png;base64,BASE" none "#673AB7" "square" "square"
        { baseQr := some "data:image/png;base64,BASE", optimizedQr := none, report := none } =
      { baseQr := some "data:image/png;base64,BASE", optimizedQr := none, report := none } := by
  constructor <;> rfl

/-- Claim C4: in the split-response variant of `optimizeQrCodeDesign`, the
report sub-request and the image sub-request are joined — the combined call
succeeds exactly when both sub-requests succeed, the failure of either
sub-request fails the whole call, and a success carries exactly the two
sub-results, so no partial result is ever returned. -/
theorem split_optimize_join_semantics
    (reportResult : Except String OptimizeQrCodeDesignOutput)
    (imageResult : Except String String) :
    ((∃ out, optimizeQrCodeDesign reportResult imageResult = Except.ok out) ↔
      (∃ r, reportResult = Except.ok r) ∧ (∃ i, imageResult = Except.ok i)) ∧
    (∀ e, imageResult = Except.error e →
      ∃ e2, optimizeQrCodeDesign reportResult imageResult = Except.error e2) ∧
    (∀ e, reportResult = Except.error e →
      ∃ e2, optimizeQrCodeDesign reportResult imageResult = Except.error e2) ∧
    (∀ out, optimizeQrCodeDesign reportResult imageResult = Except.ok out →
      reportResult = Except.ok { optimizationReport := out.optimizationReport } ∧
      imageResult = Except.ok out.optimizedQrCodeDataUri) := by
  rcases reportResult with r | r <;> rcases imageResult with i | i <;>
    simp [optimizeQrCodeDesign]

theorem split_optimize_join_semantics_witness :
    ∃ e2, optimizeQrCodeDesign (Except.ok { optimizationReport := "rep" })
        (Except.error "Image generation failed.") = Except.error e2 :=
  (split_optimize_join_semantics (Except.ok { optimizationReport := "rep" })
      (Except.error "Image generation failed.")).2.1 "Image generation failed." rfl

/-- Claim C3: every encoder invocation made by the handlers — the combined
`handleGenerateAndOptimize` and the two-step `handleGenerateBaseQr`, for both
the URL and the contact payload kinds — uses exactly pixel width 512, margin 2
and error-correction level `H` (High). -/
theorem encoder_options_fixed
    (encode : String → QrEncodeOptions → Except String String)
    (optimize : OptimizeRequest → OptimizeOutcome)
    (input : QrInput) (logo : Option String) (shapeColor eyeShape dotShape : String)
    (st : GenState) (st2 : SessState) (call : String × QrEncodeOptions) :
    (call ∈ (handleGenerateAndOptimize encode optimize input logo
        shapeColor eyeShape dotShape st).encoderCalls →
      call.2 = { width := 512, margin := 2, errorCorrectionLevel := "H" }) ∧
    (call ∈ (handleGenerateBaseQr encode input st2).2 →
      call.2 = { width := 512, margin := 2, errorCorrectionLevel := "H" }) := by
  constructor
  · intro hmem
    unfold handleGenerateAndOptimize at hmem
    rcases hbp : buildPayload input with e | d <;> simp [hbp] at hmem
    rcases henc : encode d fixedEncodeOptions with e | b <;> simp [henc] at hmem
    · rw [hmem]; rfl
    · rcases hopt : optimize (mkOptimizeRequest b logo shapeColor eyeShape dotShape) with d2 | e2 <;>
        simp [hopt] at hmem <;> rw [hmem] <;> rfl
  · intro hmem
    unfold handleGenerateBaseQr at hmem
    rcases hbp : buildPayload input with e | d <;> simp [hbp] at hmem
    rcases henc : encode d fixedEncodeOptions with e | b <;> simp [henc] at hmem <;>
      rw [hmem] <;> rfl

theorem encoder_options_fixed_witness :
    ("https://example.com", fixedEncodeOptions) ∈
      (handleGenerateAndOptimize (fun _ _ => Except.ok "IMG")
        (fun _ => OptimizeOutcome.failure "e") (QrInput.url "https://example.com")
        none "#673AB7" "square" "square" { qrCodeImage := none, report := none }).encoderCalls ∧
    ("https://example.com", fixedEncodeOptions) ∈
      (handleGenerateBaseQr (fun _ _ => Except.ok "IMG") (QrInput.url "https://example.com")
        { baseQr := none, optimizedQr := none, report := none }).2 ∧
    fixedEncodeOptions = { width := 512, margin := 2, errorCorrectionLevel := "H" } := by
  have hmem1 : ("https://example.com", fixedEncodeOptions) ∈
      (handleGenerateAndOptimize (fun _ _ => Except.ok "IMG")
        (fun _ => OptimizeOutcome.failure "e") (QrInput.url "https://example.com")
        none "#673AB7" "square" "square" { qrCodeImage := none, report := none }).encoderCalls := by
    decide
  have hmem2 : ("https://example.com", fixedEncodeOptions) ∈
      (handleGenerateBaseQr (fun _ _ => Except.ok "IMG") (QrInput.url "https://example.com")
        { baseQr := none, optimizedQr := none, report := none }).2 := by
    decide
  exact ⟨hmem1, hmem2,
    (encoder_options_fixed (fun _ _ => Except.ok "IMG") (fun _ => OptimizeOutcome.failure "e")
      (QrInput.url "https://example.com") none "#673AB7" "square" "square"
      { qrCodeImage := none, report := none }
      { baseQr := none, optimizedQr := none, report := none }
      ("https://example.com", fixedEncodeOptions)).1 hmem1⟩

/-- The contact schema rejects a record exactly when the name is empty or the
email is present and fails the zod email validator. -/
theorem contactSchemaValid_eq_false_iff (c : ContactFormValues) :
    contactSchemaValid c = false ↔
      (c.name = "" ∨ ∃ em, c.email = some em ∧ zodEmailValid em = false) := by
  rcases hcem : c.email with _ | em <;>
    simp [contactSchemaValid, hcem, Bool.and_eq_false_iff,
      decide_eq_false_iff_not, Nat.not_le, Nat.lt_one_iff, length_eq_zero_iff]
  constructor
  · intro h
    by_cases hn : 1 ≤ c.name.length
    · exact Or.inr (h hn)
    · exact Or.inl ((length_eq_zero_iff c.name).mp (by omega))
  · intro h hn
    rcases h with h | h
    · have := (length_eq_zero_iff c.name).mpr h
      omega
    · exact h

/-- Claim C5: payload building fails (with a validation error) exactly when
the input is a contact with an empty name, a contact whose email is present
but rejected by the email validator, or an empty URL; and whenever it fails
no payload is produced and neither handler makes any encoder call. -/
theorem buildPayload_validation_characterization (inp : QrInput) :
    ((∃ e, buildPayload inp = Except.error e) ↔
      ((∃ c, inp = QrInput.contact c ∧
          (c.name = "" ∨ ∃ em, c.email = some em ∧ zodEmailValid em = false)) ∨
        inp = QrInput.url "")) ∧
    (∀ e, buildPayload inp = Except.error e →
      (∀ encode optimize logo shapeColor eyeShape dotShape st,
        (handleGenerateAndOptimize encode optimize inp logo
          shapeColor eyeShape dotShape st).encoderCalls = []) ∧
      (∀ encode st2, (handleGenerateBaseQr encode inp st2).2 = [])) := by
  constructor
  · rcases inp with u | c
    · by_cases hu : u = "" <;> simp [buildPayload, hu]
    · by_cases hv : contactSchemaValid c = true
      · simp [buildPayload, hv]
        refine ⟨fun hname => ?_, fun x hx => ?_⟩
        · exact absurd ((contactSchemaValid_eq_false_iff c).mpr (Or.inl hname))
            (by simp [hv])
        · by_contra hfx
          exact absurd ((contactSchemaValid_eq_false_iff c).mpr
              (Or.inr ⟨x, hx, Bool.eq_false_iff.mpr hfx⟩))
            (by simp [hv])
      · have hv2 : contactSchemaValid c = false := Bool.eq_false_iff.mpr hv
        simp [buildPayload, hv2]
        exact (contactSchemaValid_eq_false_iff c).mp hv2
  · intro e he
    constructor
    · intro encode optimize logo shapeColor eyeShape dotShape st
      unfold handleGenerateAndOptimize
      simp [he]
    · intro encode st2
      unfold handleGenerateBaseQr
      simp [he]

theorem buildPayload_validation_characterization_witness :
    (∃ e, buildPayload (QrInput.url "") = Except.error e) ∧
    (∃ e, buildPayload
        (QrInput.contact
          { name := "John", phone := none, email := some "not-an-email",
            org := none, title := none }) = Except.error e) ∧
    (handleGenerateAndOptimize (fun _ _ => Except.ok "IMG")
        (fun _ => OptimizeOutcome.failure "e") (QrInput.url "") none "a" "b" "c"
        { qrCodeImage := none, report := none }).encoderCalls = [] := by
  refine ⟨?_, ?_, ?_⟩
  · exact (buildPayload_validation_characterization (QrInput.url "")).1.mpr (Or.inr rfl)
  · exact (buildPayload_validation_characterization _).1.mpr
      (Or.inl ⟨_, rfl, Or.inr ⟨"not-an-email", rfl, by decide⟩⟩)
  · exact ((buildPayload_validation_characterization (QrInput.url "")).2
      ValidationError.emptyUrl rfl).1 (fun _ _ => Except.ok "IMG")
      (fun _ => OptimizeOutcome.failure "e") none "a" "b" "c"
      { qrCodeImage := none, report := none }

/-- Claim C6 counterexample: with a previously generated artifact held in the
state, a failing generation request (empty URL) does not leave the artifact
state unchanged — the combined handler clears it before validating, so the
state after the failing request differs from the state before it. -/
theorem artifact_state_changed_on_validation_failure :
    (handleGenerateAndOptimize (fun _ _ => Except.ok "IMG")
        (fun _ => OptimizeOutcome.failure "e") (QrInput.url "") none "#673AB7" "square" "square"
        { qrCodeImage := some "data:image/png;base64,OLD", report := none }).state ≠
      { qrCodeImage := some "data:image/png;base64,OLD", report := none } := by
  decide

/-- Claim C6 (amended): when payload validation or encoding fails, the
generation cycle aborts without producing an artifact.  The two-step
`handleGenerateBaseQr` leaves the prior state entirely unchanged, while the
combined handler clears the artifact state at the start of the request, so
after a failing request its artifact state is empty (no artifact, no report)
rather than the prior artifact. -/
theorem generation_failure_no_artifact
    (encode : String → QrEncodeOptions → Except String String)
    (optimize : OptimizeRequest → OptimizeOutcome)
    (input : QrInput) (logo : Option String) (shapeColor eyeShape dotShape : String)
    (st : GenState) (st2 : SessState) :
    (∀ e, buildPayload input = Except.error e →
      (handleGenerateAndOptimize encode optimize input logo
          shapeColor eyeShape dotShape st).state = { qrCodeImage := none, report := none } ∧
      (handleGenerateAndOptimize encode optimize input logo
          shapeColor eyeShape dotShape st).encoderCalls = [] ∧
      handleGenerateBaseQr encode input st2 = (st2, [])) ∧
    (∀ d err, buildPayload input = Except.ok d → encode d fixedEncodeOptions = Except.error err →
      (handleGenerateAndOptimize encode optimize input logo
          shapeColor eyeShape dotShape st).state = { qrCodeImage := none, report := none } ∧
      (handleGenerateBaseQr encode input st2).1 = st2) := by
  constructor
  · intro e he
    unfold handleGenerateAndOptimize handleGenerateBaseQr
    simp [he]
  · intro d err hd herr
    unfold handleGenerateAndOptimize handleGenerateBaseQr
    simp [hd, herr]

theorem generation_failure_no_artifact_witness :
    (handleGenerateAndOptimize (fun _ _ => Except.ok "IMG")
        (fun _ => OptimizeOutcome.failure "e") (QrInput.url "") none "a" "b" "c"
        { qrCodeImage := some "OLD", report := none }).state =
      { qrCodeImage := none, report := none } ∧
    handleGenerateBaseQr (fun _ _ => Except.ok "IMG") (QrInput.url "")
        { baseQr := some "OLD", optimizedQr := none, report := none } =
      ({ baseQr := some "OLD", optimizedQr := none, report := none }, []) ∧
    (handleGenerateBaseQr (fun _ _ => Except.error "EncodingError")
        (QrInput.url "https://example.com")
        { baseQr := some "OLD", optimizedQr := none, report := none }).1 =
      { baseQr := some "OLD", optimizedQr := none, report := none } := by
  have h1 := (generation_failure_no_artifact (fun _ _ => Except.ok "IMG")
    (fun _ => OptimizeOutcome.failure "e") (QrInput.url "") none "a" "b" "c"
    { qrCodeImage := some "OLD", report := none }
    { baseQr := some "OLD", optimizedQr := none, report := none }).1
    ValidationError.emptyUrl rfl
  have h2 := (generation_failure_no_artifact (fun _ _ => Except.error "EncodingError")
    (fun _ => OptimizeOutcome.failure "e") (QrInput.url "https://example.com") none "a" "b" "c"
    { qrCodeImage := some "OLD", report := none }
    { baseQr := some "OLD", optimizedQr := none, report := none }).2
    "https://example.com" "EncodingError" rfl rfl
  exact ⟨h1.1, h1.2.2, h2.2⟩

/-- Claim C9: the current artifact reference is the optimized artifact when
one is present and otherwise the base artifact, and the download uses exactly
the same data URI as the preview, under the default filename `qrcode.png`
(in both the two-step and the combined variants). -/
theorem current_artifact_and_download (st : SessState) :
    (∀ s, st.optimizedQr = some s → s ≠ "" → currentQrImage st = some s) ∧
    (st.optimizedQr = none → currentQrImage st = st.baseQr) ∧
    (∀ s, currentQrImage st = some s → s ≠ "" →
      handleDownload st = some { href := s, download := "qrcode.png" }) ∧
    (∀ (gst : GenState) (s : String), gst.qrCodeImage = some s → s ≠ "" →
      handleDownloadCombined gst = some { href := s, download := "qrcode.png" }) := by
  refine ⟨?_, ?_, ?_, ?_⟩
  · intro s hs hne
    simp [currentQrImage, jsOr, truthy, hs, hne]
  · intro hs
    simp [currentQrImage, jsOr, truthy, hs]
  · intro s hs hne
    simp only [currentQrImage] at hs
    simp [handleDownload, hs, hne]
  · intro gst s hs hne
    simp [handleDownloadCombined, hs, hne]

theorem current_artifact_and_download_witness :
    currentQrImage { baseQr := some "B", optimizedQr := some "O", report := none } = some "O" ∧
    currentQrImage { baseQr := some "B", optimizedQr := none, report := none } = some "B" ∧
    handleDownload { baseQr := some "B", optimizedQr := some "O", report := none } =
      some { href := "O", download := "qrcode.png" } ∧
    handleDownloadCombined { qrCodeImage := some "I", report := none } =
      some { href := "I", download := "qrcode.png" } := by
  have h := current_artifact_and_download
    { baseQr := some "B", optimizedQr := some "O", report := none }
  have h2 := current_artifact_and_download
    { baseQr := some "B", optimizedQr := none, report := none }
  have hcur : currentQrImage { baseQr := some "B", optimizedQr := some "O", report := none } =
      some "O" := h.1 "O" rfl (by decide)
  exact ⟨hcur, h2.2.1 rfl, h.2.2.1 "O" hcur (by decide),
    h.2.2.2 { qrCodeImage := some "I", report := none } "I" rfl (by decide)⟩

/-- Claim C2: for every contact record with a non-empty name, the serialized
vCard payload consists of exactly the lines of `specVCardLines` joined by
newlines — `BEGIN:VCARD`, `VERSION:3.0`, `FN`, `N`, then `ORG`, `TITLE`,
`TEL;TYPE=CELL`, `EMAIL` in that fixed order, each present exactly when the
corresponding optional field is supplied; in particular with only the name
set the payload is exactly the `BEGIN/VERSION/FN/N/END` lines with no
optional-field lines. -/
theorem vcard_serialization (c : ContactFormValues) (h : c.name ≠ "") :
    generateVCard c = joinLines (specVCardLines c) ∧
    generateVCard { name := c.name, phone := none, email := none, org := none, title := none } =
      joinLines ["BEGIN:VCARD", "VERSION:3.0", "FN:" ++ c.name,
        "N:" ++ c.name ++ ";;;", "END:VCARD"] := by
  have hsplit1 : "BEGIN:VCARD\nVERSION:3.0\n".data =
      "BEGIN:VCARD".data ++ "\n".data ++ "VERSION:3.0".data ++ "\n".data := by decide
  have hsplit2 : ";;;\n".data = ";;;".data ++ "\n".data := by decide
  constructor
  · by_cases ho : truthy c.org = true <;> by_cases ht : truthy c.title = true <;>
      by_cases hp : truthy c.phone = true <;> by_cases he : truthy c.email = true <;>
      (apply String.ext;
       simp [generateVCard, specVCardLines, joinLines, ho, ht, hp, he,
         String.data_append, hsplit1, hsplit2, List.append_assoc])
  · apply String.ext
    simp [generateVCard, joinLines, truthy,
      String.data_append, hsplit1, hsplit2, List.append_assoc]

theorem vcard_serialization_witness :
    "John Doe" ≠ "" ∧
    generateVCard
        { name := "John Doe", phone := some "+1 123 456 7890",
          email := some "john.doe@email.com", org := none, title := none } =
      joinLines (specVCardLines
        { name := "John Doe", phone := some "+1 123 456 7890",
          email := some "john.doe@email.com", org := none, title := none }) :=
  ⟨by decide,
   (vcard_serialization
      { name := "John Doe", phone := some "+1 123 456 7890",
        email := some "john.doe@email.com", org := none, title := none }
      (by decide)).1⟩

/-- Claim C8: every optimization request starts with the base artifact (and
the server schema requires it), and each optional field — logo, shape color,
eye shape, dot shape, user instructions — contributes its prompt parts only
when it is present: the prompt decomposes into per-field blocks, and the
block of an absent field is empty (nothing is sent in its place). -/
theorem optimize_request_inclusion (input : OptimizeRequest) :
    PromptPart.media input.qrCodeDataUri ∈ promptParts input ∧
    (∃ lLogo lColor lEye lDot lUser,
      promptParts input =
        [PromptPart.text imagePromptIntro, PromptPart.media input.qrCodeDataUri]
          ++ lLogo ++ lColor ++ lEye ++ lDot ++ lUser ∧
      (truthy input.logoDataUri = false → lLogo = []) ∧
      (truthy input.logoDataUri = true →
        lLogo = [PromptPart.text "- Embed this logo:",
          PromptPart.media (input.logoDataUri.getD "")]) ∧
      (truthy input.shapeColor = false → lColor = []) ∧
      (truthy input.shapeColor = true →
        lColor = [PromptPart.text ("- Shape color: " ++ input.shapeColor.getD "")]) ∧
      (truthy input.eyeShape = false → lEye = []) ∧
      (truthy input.eyeShape = true →
        lEye = [PromptPart.text ("- Eye shape: " ++ input.eyeShape.getD "")]) ∧
      (truthy input.dotShape = false → lDot = []) ∧
      (truthy input.dotShape = true →
        lDot = [PromptPart.text ("- Dot shape: " ++ input.dotShape.getD "")]) ∧
      (truthy input.userInstructions = false → lUser = []) ∧
      (truthy input.userInstructions = true →
        lUser = [PromptPart.text ("- User instructions: " ++
          input.userInstructions.getD "")])) ∧
    (∀ r : RawAction, actionSchemaValid r = true → ∃ u, r.qrCodeDataUri = some u) := by
  refine ⟨?_, ?_, ?_⟩
  · by_cases h1 : truthy input.logoDataUri = true <;>
      by_cases h2 : truthy input.shapeColor = true <;>
      by_cases h3 : truthy input.eyeShape = true <;>
      by_cases h4 : truthy input.dotShape = true <;>
      by_cases h5 : truthy input.userInstructions = true <;>
      simp [promptParts, h1, h2, h3, h4, h5]
  · refine ⟨if truthy input.logoDataUri then
        [PromptPart.text "- Embed this logo:",
          PromptPart.media (input.logoDataUri.getD "")] else [],
      if truthy input.shapeColor then
        [PromptPart.text ("- Shape color: " ++ input.shapeColor.getD "")] else [],
      if truthy input.eyeShape then
        [PromptPart.text ("- Eye shape: " ++ input.eyeShape.getD "")] else [],
      if truthy input.dotShape then
        [PromptPart.text ("- Dot shape: " ++ input.dotShape.getD "")] else [],
      if truthy input.userInstructions then
        [PromptPart.text ("- User instructions: " ++ input.userInstructions.getD "")] else [],
      ?_, ?_, ?_, ?_, ?_, ?_, ?_, ?_, ?_, ?_, ?_⟩
    · by_cases h1 : truthy input.logoDataUri = true <;>
        by_cases h2 : truthy input.shapeColor = true <;>
        by_cases h3 : truthy input.eyeShape = true <;>
        by_cases h4 : truthy input.dotShape = true <;>
        by_cases h5 : truthy input.userInstructions = true <;>
        simp [promptParts, h1, h2, h3, h4, h5]
    all_goals intro hflag
    all_goals simp [hflag]
  · intro r hr
    exact Option.isSome_iff_exists.mp hr

theorem optimize_request_inclusion_witness :
    PromptPart.media "BASE" ∈ promptParts
      { qrCodeDataUri := "BASE", logoDataUri := some "LOGO", shapeColor := none,
        eyeShape := none, dotShape := none, userInstructions := none } ∧
    promptParts
      { qrCodeDataUri := "BASE", logoDataUri := some "LOGO", shapeColor := none,
        eyeShape := none, dotShape := none, userInstructions := none } =
      [PromptPart.text imagePromptIntro, PromptPart.media "BASE",
        PromptPart.text "- Embed this logo:", PromptPart.media "LOGO"] := by
  have h := optimize_request_inclusion
    { qrCodeDataUri := "BASE", logoDataUri := some "LOGO", shapeColor := none,
      eyeShape := none, dotShape := none, userInstructions := none }
  refine ⟨h.1, ?_⟩
  obtain ⟨lLogo, lColor, lEye, lDot, lUser, heq, hL0, hL1, hC0, hC1, hE0, hE1,
    hD0, hD1, hU0, hU1⟩ := h.2.1
  rw [heq, hL1 (by decide), hC0 (by decide), hE0 (by decide),
    hD0 (by decide), hU0 (by decide)]
  simp

end QRCodeForge
